import Mathlib

set_option autoImplicit false

/-!
Verification development for the chat backend (Go, backend-golang / chatserver).

The persistence engine is shallowly embedded: database tables (db/sql/init.sql)
become lists of row structures, the SQL client methods of
chatserver/chat_sql_client.go become pure state-passing functions, and storage
failures of individual Exec calls are injected through explicit boolean fault
parameters.  Machine integers are modelled as Int (no overflow is relevant to
any statement below).  Fallible Go calls return Except values; the one
nil-pointer dereference reachable in AddMessage is modelled as a dedicated
outcome constructor.
-/

namespace Chat

/-! ## Data model, from db/sql/init.sql and chatserver/common.go -/

/-- Row of the users table: id, username, hash, salt. -/
structure UserRow where
  id : Int
  username : String
  hash : List Nat
  salt : List Nat
deriving DecidableEq

/-- Row of the messages_metadata table.  width, height, length, source are all
nullable columns; an image row fills width and height, a video row fills
length and source. -/
structure MetadataRow where
  id : Int
  width : Option Int
  height : Option Int
  length : Option Int
  source : Option String
deriving DecidableEq

/-- Row of the messages table.  message_metadata_id is nullable. -/
structure MessageRow where
  id : Int
  sender_id : Int
  recipient_id : Int
  message_type : String
  message_content : String
  message_metadata_id : Option Int
deriving DecidableEq

/-- The database state: the three tables plus the AUTO_INCREMENT counters of
messages and messages_metadata. -/
structure DB where
  users : List UserRow
  messages : List MessageRow
  messages_metadata : List MetadataRow
  nextMessageId : Int
  nextMetadataId : Int
deriving DecidableEq

/-- MessageMetadata struct from chatserver/common.go: all four variant fields
are present; unused fields keep the Go zero values. -/
structure MessageMetadata where
  Width : Int
  Height : Int
  Length : Int
  Source : String
deriving DecidableEq

/-- Message struct from chatserver/common.go. -/
structure Message where
  Sender : String
  Recipient : String
  MessageType : String
  Content : String
  Metadata : Option MessageMetadata
deriving DecidableEq

/-- Message type constants from chatserver/common.go. -/
def MESSAGE_TYPE_PLAINTEXT : String := "plaintext"

def MESSAGE_TYPE_IMAGE_LINK : String := "image_link"

def MESSAGE_TYPE_VIDEO_LINK : String := "video_link"

/-- Hardcoded metadata constants from chatserver/common.go. -/
def IMAGE_WIDTH : Int := 100

def IMAGE_HEIGHT : Int := 200

def VIDEO_LENGTH : Int := 300

def VIDEO_SOURCE : String := "YouTube"

/-! ## Errors surfaced by the SQL client -/

/-- Errors the embedded SQL client can return.  noRows is sql.ErrNoRows, the
error QueryRow().Scan returns when no row matches.  execFailure is an injected
storage failure of a db.Exec call.  scanFailure is a Scan conversion error.
unknownMessageType is the errors.New value built in the default branch of
AddMessage. -/
inductive DbError where
  | noRows
  | execFailure
  | scanFailure
  | unknownMessageType (t : String)
deriving DecidableEq

/-- The Go error text carried by each error value. -/
def DbError.message : DbError → String
  | .noRows => "sql: no rows in result set"
  | .execFailure => "exec failure"
  | .scanFailure => "sql: scan error"
  | .unknownMessageType t => "Unknown message type " ++ t

/-! ## Queries, from chatserver/chat_sql_client.go -/

/-- getUserId: SELECT id FROM users WHERE username=? (lines 49-53).  QueryRow
returns the first matching row; Scan yields sql.ErrNoRows when there is none. -/
def getUserId (db : DB) (username : String) : Except DbError Int :=
  match db.users.find? (fun u => u.username == username) with
  | some u => .ok u.id
  | none => .error .noRows

/-- getUserById: SELECT username FROM users WHERE id=? (lines 56-60). -/
def getUserById (db : DB) (id : Int) : Except DbError String :=
  match db.users.find? (fun u => u.id == id) with
  | some u => .ok u.username
  | none => .error .noRows

/-- getImageMetadataFromId (lines 63-74): SELECT width, height FROM
messages_metadata WHERE id=?.  Scanning a NULL column into an int is a Scan
error. -/
def getImageMetadataFromId (db : DB) (id : Int) : Except DbError MessageMetadata :=
  match db.messages_metadata.find? (fun m => m.id == id) with
  | none => .error .noRows
  | some m =>
    match m.width, m.height with
    | some w, some h => .ok ⟨w, h, 0, ""⟩
    | _, _ => .error .scanFailure

/-- getVideoMetadataFromId (lines 77-88): SELECT length, source FROM
messages_metadata WHERE id=?. -/
def getVideoMetadataFromId (db : DB) (id : Int) : Except DbError MessageMetadata :=
  match db.messages_metadata.find? (fun m => m.id == id) with
  | none => .error .noRows
  | some m =>
    match m.length, m.source with
    | some l, some s => .ok ⟨0, 0, l, s⟩
    | _, _ => .error .scanFailure

/-! ## Inserts -/

/-- Effect of a successful INSERT INTO messages Exec: append the row, return
LastInsertId (the AUTO_INCREMENT value) and the next state. -/
def execInsertMessage (db : DB) (senderId recipientId : Int)
    (messageType content : String) (metadataId : Option Int) : Int × DB :=
  (db.nextMessageId,
   { db with
       messages := db.messages ++
         [⟨db.nextMessageId, senderId, recipientId, messageType, content, metadataId⟩],
       nextMessageId := db.nextMessageId + 1 })

/-- Effect of a successful INSERT INTO messages_metadata(width, height) Exec. -/
def execInsertImageMetadata (db : DB) : Int × DB :=
  (db.nextMetadataId,
   { db with
       messages_metadata := db.messages_metadata ++
         [⟨db.nextMetadataId, some IMAGE_WIDTH, some IMAGE_HEIGHT, none, none⟩],
       nextMetadataId := db.nextMetadataId + 1 })

/-- Effect of a successful INSERT INTO messages_metadata(length, source) Exec. -/
def execInsertVideoMetadata (db : DB) : Int × DB :=
  (db.nextMetadataId,
   { db with
       messages_metadata := db.messages_metadata ++
         [⟨db.nextMetadataId, none, none, some VIDEO_LENGTH, some VIDEO_SOURCE⟩],
       nextMetadataId := db.nextMetadataId + 1 })

/-- Outcome of AddMessage.  ok and err carry the database state after the
call; panic models the nil-pointer dereference described below. -/
inductive AddMessageResult where
  | ok (id : Int) (db : DB)
  | err (e : DbError) (db : DB)
  | panic (db : DB)
deriving DecidableEq

/-- AddMessage, chatserver/chat_sql_client.go lines 118-165, transliterated.

The two boolean parameters inject storage failures: fault1 fails the first
db.Exec the call performs, fault2 the second (a failed Exec leaves the table
unchanged and returns a nil result with a non-nil error).

In the image_link and video_link branches the Go code reads

  res, err := client.db.Exec(INSERT_MESSAGES_..._METADATA, ...)
  metadataId, err := res.LastInsertId()
  if err != nil ...

so the error of the metadata Exec is discarded: it is shadowed by the
LastInsertId assignment before any check.  When that Exec fails, res is nil
and res.LastInsertId() dereferences a nil pointer: the call panics instead of
returning an error.  When the Exec succeeds, LastInsertId of the mysql driver
never fails, so the checked error is always nil.  There is no transaction:
each Exec commits independently, so a failure of the second Exec leaves the
metadata row of the first in place. -/
def AddMessage (db : DB) (senderName recipientName messageType content : String)
    (fault1 fault2 : Bool) : AddMessageResult :=
  match getUserId db senderName with
  | .error e => .err e db
  | .ok senderId =>
    match getUserId db recipientName with
    | .error e => .err e db
    | .ok recipientId =>
      match messageType with
      | "plaintext" =>
        if fault1 then .err .execFailure db
        else
          let r := execInsertMessage db senderId recipientId messageType content none
          .ok r.1 r.2
      | "image_link" =>
        if fault1 then .panic db
        else
          let r := execInsertImageMetadata db
          if fault2 then .err .execFailure r.2
          else
            let r2 := execInsertMessage r.2 senderId recipientId messageType content (some r.1)
            .ok r2.1 r2.2
      | "video_link" =>
        if fault1 then .panic db
        else
          let r := execInsertVideoMetadata db
          if fault2 then .err .execFailure r.2
          else
            let r2 := execInsertMessage r.2 senderId recipientId messageType content (some r.1)
            .ok r2.1 r2.2
      | _ => .err (.unknownMessageType messageType) db

/-! ## FetchMessages, chatserver/chat_sql_client.go lines 168-245 -/

/-- The WHERE clause of SELECT_MESSAGES_BETWEEN_USERS (line 20) for the user
id pair (aId, bId): (sender_id=aId AND recipient_id=bId) OR
(sender_id=bId AND recipient_id=aId). -/
def betweenUsers (aId bId : Int) (m : MessageRow) : Bool :=
  (m.sender_id == aId && m.recipient_id == bId) ||
  (m.sender_id == bId && m.recipient_id == aId)

/-- The rows of the messages table matching the WHERE clause, in table order. -/
def conversationRows (db : DB) (aId bId : Int) : List MessageRow :=
  db.messages.filter (betweenUsers aId bId)

/-- Insertion step of the ORDER BY id sort. -/
def insertById (r : MessageRow) : List MessageRow → List MessageRow
  | [] => [r]
  | x :: xs => if r.id ≤ x.id then r :: x :: xs else x :: insertById r xs

/-- ORDER BY id: sort the selected rows by ascending message id. -/
def sortById : List MessageRow → List MessageRow
  | [] => []
  | x :: xs => insertById x (sortById xs)

/-- The row set SELECT_MESSAGES_BETWEEN_USERS returns: matching rows ordered
by ascending id. -/
def selectMessagesBetweenUsers (db : DB) (aId bId : Int) : List MessageRow :=
  sortById (conversationRows db aId bId)

/-- Body of the row loop of FetchMessages (lines 190-243): resolve the two
usernames of the row, then fetch and attach the metadata variant selected by
metadata_id.Valid and the message type. -/
def rowToMessage (db : DB) (row : MessageRow) : Except DbError Message :=
  match getUserById db row.sender_id with
  | .error e => .error e
  | .ok sender =>
    match getUserById db row.recipient_id with
    | .error e => .error e
    | .ok recipient =>
      match row.message_metadata_id with
      | some mid =>
        match row.message_type with
        | "image_link" =>
          match getImageMetadataFromId db mid with
          | .error e => .error e
          | .ok md => .ok ⟨sender, recipient, row.message_type, row.message_content, some md⟩
        | "video_link" =>
          match getVideoMetadataFromId db mid with
          | .error e => .error e
          | .ok md => .ok ⟨sender, recipient, row.message_type, row.message_content, some md⟩
        | _ => .error (.unknownMessageType row.message_type)
      | none => .ok ⟨sender, recipient, row.message_type, row.message_content, none⟩

/-- The rows.Next() loop of FetchMessages: build the message list in row
order, returning the first error encountered. -/
def rowsToMessages (db : DB) : List MessageRow → Except DbError (List Message)
  | [] => .ok []
  | row :: rest =>
    match rowToMessage db row with
    | .error e => .error e
    | .ok msg =>
      match rowsToMessages db rest with
      | .error e => .error e
      | .ok msgs => .ok (msg :: msgs)

/-- FetchMessages (lines 168-245): resolve both usernames, run
SELECT_MESSAGES_BETWEEN_USERS with the pair in both orders, and decode every
row. -/
def FetchMessages (db : DB) (senderName recipientName : String) :
    Except DbError (List Message) :=
  match getUserId db senderName with
  | .error e => .error e
  | .ok requestedSenderId =>
    match getUserId db recipientName with
    | .error e => .error e
    | .ok requestedRecipientId =>
      rowsToMessages db (selectMessagesBetweenUsers db requestedSenderId requestedRecipientId)

/-! ## Send-message request validation, chatserver/messages.go lines 80-99 -/

/-- Errors of parseSendMessage. -/
inductive ParseError where
  | emptyMessage
  | invalidMessageType (t : String)
deriving DecidableEq

/-- parseSendMessage, validation part (lines 90-98): reject empty content,
then reject a messageType outside the three known constants.  JSON decoding
is the excluded transport layer and is not modelled. -/
def parseSendMessage (senderName recipientName messageType content : String) :
    Except ParseError (String × String × String × String) :=
  if content.length ≤ 0 then .error .emptyMessage
  else if messageType ≠ MESSAGE_TYPE_PLAINTEXT ∧ messageType ≠ MESSAGE_TYPE_IMAGE_LINK ∧
          messageType ≠ MESSAGE_TYPE_VIDEO_LINK then
    .error (.invalidMessageType messageType)
  else .ok (senderName, recipientName, messageType, content)

/-- Outcome of the sendMessage handler.  badRequest is the 400 path taken
when parseSendMessage fails: AddMessage is never invoked, so the database
state is the untouched input state. -/
inductive SendMessageOutcome where
  | badRequest (e : ParseError) (db : DB)
  | serverError (e : DbError) (db : DB)
  | panic (db : DB)
  | ok (id : Int) (db : DB)
deriving DecidableEq

/-- sendMessage, chatserver/messages.go lines 47-76: parse and validate,
then call AddMessage. -/
def sendMessage (db : DB) (senderName recipientName messageType content : String)
    (fault1 fault2 : Bool) : SendMessageOutcome :=
  match parseSendMessage senderName recipientName messageType content with
  | .error e => .badRequest e db
  | .ok _ =>
    match AddMessage db senderName recipientName messageType content fault1 fault2 with
    | .ok id db1 => .ok id db1
    | .err e db1 => .serverError e db1
    | .panic db1 => .panic db1

/-! ## Pagination, fetchMessages handler (src/unnamed/part_005 lines 93-130,
identically src/unnamed/part_004 lines 124-152) -/

/-- The 400 error of the pagination boundary check. -/
inductive PageError where
  | badPageWindow
deriving DecidableEq

/-- Go slice messages[start:stop] under the preconditions of the branch that
uses it (0 ≤ start ≤ stop ≤ len). -/
def goSlice (msgs : List Message) (start stop : Int) : List Message :=
  (msgs.drop start.toNat).take (stop - start).toNat

/-- Go slice messages[start:]. -/
def goSliceFrom (msgs : List Message) (start : Int) : List Message :=
  msgs.drop start.toNat

/-- The pagination block of the fetchMessages handler (part_005 lines
106-122): with usePagination set, compute start = pageToLoad *
messagesPerPage and the exclusive stop index (pageToLoad + 1) *
messagesPerPage (written inline below), reject impossible windows with a
400, otherwise slice messages[start:stop], clipped to messages[start:] when
the page runs past the stored count. -/
def fetchMessagesPagination (messages : List Message) (usePagination : Bool)
    (messagesPerPage pageToLoad : Int) : Except PageError (List Message) :=
  if usePagination then
    if (messages.length : Int) ≤ pageToLoad * messagesPerPage ∨
        pageToLoad * messagesPerPage < 0 ∨ messagesPerPage ≤ 0 then
      .error .badPageWindow
    else if (messages.length : Int) ≥ (pageToLoad + 1) * messagesPerPage then
      .ok (goSlice messages (pageToLoad * messagesPerPage)
            ((pageToLoad + 1) * messagesPerPage))
    else .ok (goSliceFrom messages (pageToLoad * messagesPerPage))
  else .ok messages

/-- The slice the specification describes, written from its words: the
half-open window from start to min(start + pageSize, n) of the ordered
messages, start = pageIndex * pageSize. -/
def specPageSlice (messages : List Message) (pageSize pageIndex : Int) : List Message :=
  (messages.drop (pageIndex * pageSize).toNat).take
    (min (pageIndex * pageSize + pageSize) (messages.length : Int) - pageIndex * pageSize).toNat

/-! ## Credential handling, src/unnamed/part_000 (package chatauth)

HashPasswordWithSalt and Authenticate delegate to golang.org/x/crypto/bcrypt,
an external library.  bcrypt is modelled functionally: a hash value records
the cost, the embedded random salt and a key derived from the first 72 bytes
of the input; the stored byte string is a concrete encoding of that record,
so that CompareHashAndPassword can fail on a structurally corrupt stored
hash.  The key-derivation function itself is a parameter of every definition
and theorem, so nothing below depends on its internals.  Randomness (the
embedded bcrypt salt, the returned session token) is passed in explicitly. -/

/-- Cost constant of part_000 line 15. -/
def HASH_COST : Nat := 14

/-- Decoded form of a bcrypt hash value. -/
structure BcryptHash where
  cost : Nat
  bsalt : List Nat
  key : List Nat
deriving DecidableEq

/-- The stored byte encoding of a bcrypt hash (models the textual
two-dollar-sign format: cost, then salt, then key). -/
def encodeBcryptHash (h : BcryptHash) : List Nat :=
  h.cost :: h.bsalt.length :: (h.bsalt ++ h.key)

/-- Parsing a stored bcrypt hash; none models the parse errors
CompareHashAndPassword reports on a malformed stored hash. -/
def decodeBcryptHash (bytes : List Nat) : Option BcryptHash :=
  match bytes with
  | cost :: saltLen :: rest =>
    if saltLen ≤ rest.length then some ⟨cost, rest.take saltLen, rest.drop saltLen⟩
    else none
  | _ => none

/-- Errors of the bcrypt layer: mismatch is ErrMismatchedHashAndPassword,
hashCorrupt stands for the parse errors on a malformed stored hash,
invalidCost for a cost above the legal maximum of 31. -/
inductive AuthError where
  | mismatch
  | hashCorrupt
  | invalidCost
deriving DecidableEq

/-- bcrypt.GenerateFromPassword: derive a key from the first 72 bytes of the
input under a fresh embedded salt and encode the result.  kdf is the key
derivation (cost, truncated input, embedded salt); bsalt is the random
embedded salt. -/
def bcryptGenerateFromPassword (kdf : Nat → List Nat → List Nat → List Nat)
    (bsalt : List Nat) (password : List Nat) (cost : Nat) :
    Except AuthError (List Nat) :=
  if 31 < cost then .error .invalidCost
  else .ok (encodeBcryptHash ⟨cost, bsalt, kdf cost (password.take 72) bsalt⟩)

/-- bcrypt.CompareHashAndPassword: parse the stored hash, recompute the key
from the attempt deterministically, compare.  none means match; the error
distinguishes a mismatch from a corrupt stored hash. -/
def bcryptCompareHashAndPassword (kdf : Nat → List Nat → List Nat → List Nat)
    (hashed : List Nat) (password : List Nat) : Option AuthError :=
  match decodeBcryptHash hashed with
  | none => some .hashCorrupt
  | some h => if h.key = kdf h.cost (password.take 72) h.bsalt then none else some .mismatch

/-- HashPasswordWithSalt, part_000 lines 35-40:
bcrypt.GenerateFromPassword(append(password, salt...), HASH_COST). -/
def HashPasswordWithSalt (kdf : Nat → List Nat → List Nat → List Nat)
    (bsalt : List Nat) (password : List Nat) (salt : List Nat) :
    Except AuthError (List Nat) :=
  bcryptGenerateFromPassword kdf bsalt (password ++ salt) HASH_COST

/-- Authenticate, part_000 lines 45-51: compare, and on success return a
fresh 256-bit token (the randomness is the token parameter).  Any comparison
error, including a plain mismatch, is propagated to the caller as an error. -/
def Authenticate (kdf : Nat → List Nat → List Nat → List Nat) (token : List Nat)
    (password : List Nat) (salt : List Nat) (hash : List Nat) :
    Except AuthError (List Nat) :=
  match bcryptCompareHashAndPassword kdf hash (password ++ salt) with
  | some e => .error e
  | none => .ok token

/-! ## Concrete fixtures used by witnesses and counterexamples -/

/-- A demo user, id 1. -/
def user1 : UserRow := ⟨1, "user1", [], []⟩

/-- A demo user, id 2. -/
def user2 : UserRow := ⟨2, "user2", [], []⟩

/-- A database holding exactly the two demo users and no messages. -/
def demoDb : DB := ⟨[user1, user2], [], [], 1, 1⟩

/-- A plaintext demo message between the demo users. -/
def demoMessage (c : String) : Message := ⟨"user1", "user2", MESSAGE_TYPE_PLAINTEXT, c, none⟩

/-- Five stored demo messages, for the pagination scenario. -/
def demoMessages : List Message :=
  [demoMessage "1", demoMessage "2", demoMessage "3", demoMessage "4", demoMessage "5"]

/-- The database state after a successful plaintext message insert. -/
def dbAfterPlaintext (db : DB) (aId bId : Int) (c : String) : DB :=
  ⟨db.users,
   db.messages ++ [⟨db.nextMessageId, aId, bId, MESSAGE_TYPE_PLAINTEXT, c, none⟩],
   db.messages_metadata, db.nextMessageId + 1, db.nextMetadataId⟩

/-- The database state after a successful image_link metadata+message insert
pair. -/
def dbAfterImage (db : DB) (aId bId : Int) (c : String) : DB :=
  ⟨db.users,
   db.messages ++
     [⟨db.nextMessageId, aId, bId, MESSAGE_TYPE_IMAGE_LINK, c, some db.nextMetadataId⟩],
   db.messages_metadata ++
     [⟨db.nextMetadataId, some IMAGE_WIDTH, some IMAGE_HEIGHT, none, none⟩],
   db.nextMessageId + 1, db.nextMetadataId + 1⟩

/-- The database state after a successful video_link metadata+message insert
pair. -/
def dbAfterVideo (db : DB) (aId bId : Int) (c : String) : DB :=
  ⟨db.users,
   db.messages ++
     [⟨db.nextMessageId, aId, bId, MESSAGE_TYPE_VIDEO_LINK, c, some db.nextMetadataId⟩],
   db.messages_metadata ++
     [⟨db.nextMetadataId, none, none, some VIDEO_LENGTH, some VIDEO_SOURCE⟩],
   db.nextMessageId + 1, db.nextMetadataId + 1⟩

/-! ## Helper lemmas -/

/-- getUserId only reads the users table. -/
theorem getUserId_users_eq (db1 db2 : DB) (u : String) (h : db1.users = db2.users) :
    getUserId db1 u = getUserId db2 u := by
  unfold getUserId; rw [h]

/-- getUserById only reads the users table. -/
theorem getUserById_users_eq (db1 db2 : DB) (i : Int) (h : db1.users = db2.users) :
    getUserById db1 i = getUserById db2 i := by
  unfold getUserById; rw [h]

/-- The only error getUserId produces is the no-rows error of QueryRow. -/
theorem getUserId_error_is_noRows (db : DB) (u : String) (e : DbError)
    (h : getUserId db u = .error e) : e = .noRows := by
  unfold getUserId at h
  cases hf : db.users.find? (fun x => x.username == u) <;> rw [hf] at h
  · exact (Except.error.inj h).symm
  · exact absurd h (by simp)

/-- find? skips a block in which the predicate never holds. -/
theorem find?_append_of_none {α : Type} (p : α → Bool) (l1 l2 : List α)
    (h : ∀ x ∈ l1, p x = false) :
    List.find? p (l1 ++ l2) = List.find? p l2 := by
  induction l1 with
  | nil => rfl
  | cons x xs ih =>
    rw [List.cons_append, List.find?_cons_of_neg _ (by simp [h x (List.mem_cons_self x xs)])]
    exact ih fun y hy => h y (List.mem_cons_of_mem x hy)

/-- Successful plaintext AddMessage, with the resulting state spelled out. -/
theorem addMessage_plaintext_ok (db : DB) (a b c : String) (aId bId : Int)
    (ha : getUserId db a = .ok aId) (hb : getUserId db b = .ok bId) :
    AddMessage db a b MESSAGE_TYPE_PLAINTEXT c false false =
      .ok db.nextMessageId (dbAfterPlaintext db aId bId c) := by
  unfold AddMessage
  rw [ha, hb]
  rfl

/-- Successful image_link AddMessage, with the resulting state spelled out. -/
theorem addMessage_image_ok (db : DB) (a b c : String) (aId bId : Int)
    (ha : getUserId db a = .ok aId) (hb : getUserId db b = .ok bId) :
    AddMessage db a b MESSAGE_TYPE_IMAGE_LINK c false false =
      .ok db.nextMessageId (dbAfterImage db aId bId c) := by
  unfold AddMessage
  rw [ha, hb]
  rfl

/-- Successful video_link AddMessage, with the resulting state spelled out. -/
theorem addMessage_video_ok (db : DB) (a b c : String) (aId bId : Int)
    (ha : getUserId db a = .ok aId) (hb : getUserId db b = .ok bId) :
    AddMessage db a b MESSAGE_TYPE_VIDEO_LINK c false false =
      .ok db.nextMessageId (dbAfterVideo db aId bId c) := by
  unfold AddMessage
  rw [ha, hb]
  rfl

/-- FetchMessages reduced to its row pipeline once both usernames resolve. -/
theorem fetchMessages_of_rows (db : DB) (a b : String) (aId bId : Int)
    (ha : getUserId db a = .ok aId) (hb : getUserId db b = .ok bId)
    (rows : List MessageRow) (hrows : selectMessagesBetweenUsers db aId bId = rows)
    (msgs : List Message) (hmap : rowsToMessages db rows = .ok msgs) :
    FetchMessages db a b = .ok msgs := by
  unfold FetchMessages
  rw [ha, hb]
  show rowsToMessages db (selectMessagesBetweenUsers db aId bId) = Except.ok msgs
  rw [hrows]
  exact hmap

/-- Query direction does not matter: the WHERE clause is symmetric in the
pair, and an unresolvable username yields the same no-rows error whichever
argument it is. -/
theorem fetchMessages_comm (db : DB) (a b : String) :
    FetchMessages db a b = FetchMessages db b a := by
  unfold FetchMessages
  cases hA : getUserId db a with
  | error eA =>
    cases hB : getUserId db b with
    | error eB =>
      show (Except.error eA : Except DbError (List Message)) = Except.error eB
      rw [getUserId_error_is_noRows db a eA hA, getUserId_error_is_noRows db b eB hB]
    | ok j =>
      show (Except.error eA : Except DbError (List Message)) = Except.error eA
      rfl
  | ok i =>
    cases hB : getUserId db b with
    | error eB =>
      show (Except.error eB : Except DbError (List Message)) = Except.error eB
      rfl
    | ok j =>
      show rowsToMessages db (selectMessagesBetweenUsers db i j) =
        rowsToMessages db (selectMessagesBetweenUsers db j i)
      congr 1
      unfold selectMessagesBetweenUsers conversationRows
      congr 1
      apply List.filter_congr
      intro m _
      unfold betweenUsers
      exact Bool.or_comm _ _

/-- Decoding a row with no metadata reference. -/
theorem rowToMessage_no_metadata (db : DB) (i sid rid : Int) (ty c s r : String)
    (hs : getUserById db sid = .ok s) (hr : getUserById db rid = .ok r) :
    rowToMessage db ⟨i, sid, rid, ty, c, none⟩ = .ok ⟨s, r, ty, c, none⟩ := by
  unfold rowToMessage
  rw [hs, hr]

/-- Decoding an image row. -/
theorem rowToMessage_image_row (db : DB) (i sid rid mid : Int) (c s r : String)
    (md : MessageMetadata)
    (hs : getUserById db sid = .ok s) (hr : getUserById db rid = .ok r)
    (hm : getImageMetadataFromId db mid = .ok md) :
    rowToMessage db ⟨i, sid, rid, MESSAGE_TYPE_IMAGE_LINK, c, some mid⟩ =
      .ok ⟨s, r, MESSAGE_TYPE_IMAGE_LINK, c, some md⟩ := by
  unfold rowToMessage
  rw [hs, hr]
  show (match getImageMetadataFromId db mid with
        | Except.error e => (Except.error e : Except DbError Message)
        | Except.ok md2 => Except.ok ⟨s, r, MESSAGE_TYPE_IMAGE_LINK, c, some md2⟩) =
      Except.ok ⟨s, r, MESSAGE_TYPE_IMAGE_LINK, c, some md⟩
  rw [hm]

/-- Decoding a video row. -/
theorem rowToMessage_video_row (db : DB) (i sid rid mid : Int) (c s r : String)
    (md : MessageMetadata)
    (hs : getUserById db sid = .ok s) (hr : getUserById db rid = .ok r)
    (hm : getVideoMetadataFromId db mid = .ok md) :
    rowToMessage db ⟨i, sid, rid, MESSAGE_TYPE_VIDEO_LINK, c, some mid⟩ =
      .ok ⟨s, r, MESSAGE_TYPE_VIDEO_LINK, c, some md⟩ := by
  unfold rowToMessage
  rw [hs, hr]
  show (match getVideoMetadataFromId db mid with
        | Except.error e => (Except.error e : Except DbError Message)
        | Except.ok md2 => Except.ok ⟨s, r, MESSAGE_TYPE_VIDEO_LINK, c, some md2⟩) =
      Except.ok ⟨s, r, MESSAGE_TYPE_VIDEO_LINK, c, some md⟩
  rw [hm]

/-- Sorting a two-element run already in id order is the identity. -/
theorem sortById_pair (r1 r2 : MessageRow) (h : r1.id ≤ r2.id) :
    sortById [r1, r2] = [r1, r2] := by
  simp [sortById, insertById, h]

/-- Image metadata lookup after appending a fresh row. -/
theorem getImageMetadataFromId_append (db1 : DB) (old : List MetadataRow) (mid w h : Int)
    (hm : db1.messages_metadata = old ++ [⟨mid, some w, some h, none, none⟩])
    (hfresh : ∀ m ∈ old, m.id ≠ mid) :
    getImageMetadataFromId db1 mid = .ok ⟨w, h, 0, ""⟩ := by
  unfold getImageMetadataFromId
  rw [hm, find?_append_of_none _ _ _ (fun m hmem => by simp [hfresh m hmem])]
  simp [List.find?]

/-- Video metadata lookup after appending a fresh row. -/
theorem getVideoMetadataFromId_append (db1 : DB) (old : List MetadataRow) (mid l : Int)
    (s : String)
    (hm : db1.messages_metadata = old ++ [⟨mid, none, none, some l, some s⟩])
    (hfresh : ∀ m ∈ old, m.id ≠ mid) :
    getVideoMetadataFromId db1 mid = .ok ⟨0, 0, l, s⟩ := by
  unfold getVideoMetadataFromId
  rw [hm, find?_append_of_none _ _ _ (fun m hmem => by simp [hfresh m hmem])]
  simp [List.find?]

/-- Fetch after appending one matching row to an empty conversation. -/
theorem fetchMessages_after_one (db db1 : DB) (a b : String) (aId bId : Int)
    (rrow : MessageRow) (msg : Message)
    (husers : db1.users = db.users)
    (hmsgs : db1.messages = db.messages ++ [rrow])
    (ha : getUserId db a = .ok aId) (hb : getUserId db b = .ok bId)
    (hempty : conversationRows db aId bId = [])
    (hmatch : betweenUsers aId bId rrow = true)
    (hrow : rowToMessage db1 rrow = .ok msg) :
    FetchMessages db1 a b = .ok [msg] := by
  apply fetchMessages_of_rows db1 a b aId bId
    ((getUserId_users_eq db1 db a husers).trans ha)
    ((getUserId_users_eq db1 db b husers).trans hb)
    [rrow] ?_ [msg] ?_
  · unfold selectMessagesBetweenUsers conversationRows
    rw [hmsgs, List.filter_append]
    unfold conversationRows at hempty
    rw [hempty, List.nil_append]
    simp [List.filter_cons, hmatch, sortById, insertById]
  · simp only [rowsToMessages]
    rw [hrow]

/-- Fetch after appending two matching rows, in id order, to an empty
conversation. -/
theorem fetchMessages_after_two (db db1 : DB) (a b : String) (aId bId : Int)
    (r1 r2 : MessageRow) (m1 m2 : Message)
    (husers : db1.users = db.users)
    (hmsgs : db1.messages = db.messages ++ [r1] ++ [r2])
    (ha : getUserId db a = .ok aId) (hb : getUserId db b = .ok bId)
    (hempty : conversationRows db aId bId = [])
    (hmatch1 : betweenUsers aId bId r1 = true)
    (hmatch2 : betweenUsers aId bId r2 = true)
    (hid : r1.id ≤ r2.id)
    (hrow1 : rowToMessage db1 r1 = .ok m1)
    (hrow2 : rowToMessage db1 r2 = .ok m2) :
    FetchMessages db1 a b = .ok [m1, m2] := by
  apply fetchMessages_of_rows db1 a b aId bId
    ((getUserId_users_eq db1 db a husers).trans ha)
    ((getUserId_users_eq db1 db b husers).trans hb)
    [r1, r2] ?_ [m1, m2] ?_
  · unfold selectMessagesBetweenUsers conversationRows
    rw [hmsgs, List.filter_append, List.filter_append]
    unfold conversationRows at hempty
    rw [hempty, List.nil_append]
    simp only [List.filter_cons, hmatch1, hmatch2, if_true, List.filter_nil]
    exact sortById_pair r1 r2 hid
  · simp only [rowsToMessages]
    rw [hrow1, hrow2]

/-! ## Claims -/

/-- C1.  The claim states that for non-plaintext messages the metadata and
message inserts run in one atomic transaction, and a failure of either
insert leaves zero rows in both tables.  The code has no transaction: the
two inserts are independent db.Exec calls.  Evaluated at the failing input
in which the second Exec (the message insert) fails after the metadata
insert succeeded, AddMessage returns an error while the freshly inserted
metadata row persists: one orphaned row in messages_metadata, zero rows in
messages. -/
theorem addMessage_interrupted_insert_leaves_orphan :
    AddMessage demoDb "user1" "user2" MESSAGE_TYPE_IMAGE_LINK "pic" false true =
      .err .execFailure ⟨[user1, user2], [], [⟨1, some 100, some 200, none, none⟩], 1, 2⟩ ∧
    (⟨[user1, user2], [], [⟨1, some 100, some 200, none, none⟩], 1, 2⟩ : DB).messages = [] ∧
    (⟨[user1, user2], [], [⟨1, some 100, some 200, none, none⟩], 1, 2⟩ : DB).messages_metadata.length = 1 := by
  exact ⟨rfl, rfl, rfl⟩

/-- C9.  In AddMessage the error of the metadata-insert Exec is shadowed by
the LastInsertId assignment before being checked, so a failing metadata
insert makes the function dereference a nil result and panic instead of
returning an error: for any database in which both users resolve, injecting
a failure into the first Exec of an image_link or video_link send yields the
panic outcome, never an error return. -/
theorem addMessage_metadata_exec_error_shadowed (db : DB) (a b c : String)
    (aId bId : Int) (fault2 : Bool)
    (ha : getUserId db a = .ok aId) (hb : getUserId db b = .ok bId) :
    AddMessage db a b MESSAGE_TYPE_IMAGE_LINK c true fault2 = .panic db ∧
    AddMessage db a b MESSAGE_TYPE_VIDEO_LINK c true fault2 = .panic db := by
  unfold AddMessage
  rw [ha, hb]
  exact ⟨rfl, rfl⟩

/-- Witness for C9 at a concrete database. -/
theorem addMessage_metadata_exec_error_shadowed_witness :
    AddMessage demoDb "user1" "user2" MESSAGE_TYPE_IMAGE_LINK "pic" true false = .panic demoDb ∧
    AddMessage demoDb "user1" "user2" MESSAGE_TYPE_VIDEO_LINK "pic" true false = .panic demoDb :=
  addMessage_metadata_exec_error_shadowed demoDb "user1" "user2" "pic" 1 2 false rfl rfl

/-- C10.  For every image_link message the stored metadata row carries the
compile-time constants width 100 and height 200, and for every video_link
message length 300 and source YouTube, independently of the caller-supplied
sender, recipient and content. -/
theorem addMessage_metadata_constants (db : DB) (a b c : String) (aId bId : Int)
    (ha : getUserId db a = .ok aId) (hb : getUserId db b = .ok bId) :
    (∃ db1, AddMessage db a b MESSAGE_TYPE_IMAGE_LINK c false false = .ok db.nextMessageId db1 ∧
      db1.messages_metadata =
        db.messages_metadata ++ [⟨db.nextMetadataId, some 100, some 200, none, none⟩]) ∧
    (∃ db1, AddMessage db a b MESSAGE_TYPE_VIDEO_LINK c false false = .ok db.nextMessageId db1 ∧
      db1.messages_metadata =
        db.messages_metadata ++ [⟨db.nextMetadataId, none, none, some 300, some "YouTube"⟩]) := by
  unfold AddMessage
  rw [ha, hb]
  exact ⟨⟨_, rfl, rfl⟩, ⟨_, rfl, rfl⟩⟩

/-- Witness for C10 at a concrete database. -/
theorem addMessage_metadata_constants_witness :
    ∃ db1, AddMessage demoDb "user1" "user2" MESSAGE_TYPE_IMAGE_LINK "anything" false false =
        .ok demoDb.nextMessageId db1 ∧
      db1.messages_metadata =
        demoDb.messages_metadata ++ [⟨demoDb.nextMetadataId, some 100, some 200, none, none⟩] :=
  (addMessage_metadata_constants demoDb "user1" "user2" "anything" 1 2 rfl rfl).1

/-- C5, counterexample to the claimed error text.  AddMessage with a missing
sender fails with the raw driver error sql.ErrNoRows, whose text is
"sql: no rows in result set": it does not name the missing username, contrary
to the claimed NotFoundError("no such user ghost"). -/
theorem addMessage_ghost_counterexample :
    AddMessage demoDb "ghost" "user1" MESSAGE_TYPE_PLAINTEXT "hi" false false =
      .err .noRows demoDb ∧
    DbError.message .noRows = "sql: no rows in result set" ∧
    ¬ ("ghost".toList <:+: (DbError.message .noRows).toList) := by
  exact ⟨rfl, rfl, by decide⟩

/-- C5 as amended.  AddMessage with a missing sender or recipient fails with
the driver no-rows error (which does not name the username), the database is
left unchanged by the failed call, and sender equal to recipient is not
rejected: a self-message to a resolvable username succeeds. -/
theorem addMessage_missing_user_error (db : DB) (s r ty c : String) (f1 f2 : Bool) :
    (getUserId db s = .error .noRows → AddMessage db s r ty c f1 f2 = .err .noRows db) ∧
    (∀ i : Int, getUserId db s = .ok i → getUserId db r = .error .noRows →
      AddMessage db s r ty c f1 f2 = .err .noRows db) ∧
    (∀ i : Int, getUserId db s = .ok i →
      ∃ db1, AddMessage db s s MESSAGE_TYPE_PLAINTEXT c false false = .ok db.nextMessageId db1) := by
  refine ⟨?_, ?_, ?_⟩
  · intro h
    unfold AddMessage
    rw [h]
  · intro i h1 h2
    unfold AddMessage
    rw [h1, h2]
  · intro i h
    exact ⟨_, addMessage_plaintext_ok db s s c i i h h⟩

/-- Witness for C5: the ghost sender fails with the no-rows error and an
untouched database, and a self-message from user1 to user1 succeeds. -/
theorem addMessage_missing_user_error_witness :
    AddMessage demoDb "ghost" "user1" MESSAGE_TYPE_PLAINTEXT "hi" false false =
      .err .noRows demoDb ∧
    (∃ db1, AddMessage demoDb "user1" "user1" MESSAGE_TYPE_PLAINTEXT "hi" false false =
      .ok demoDb.nextMessageId db1) :=
  ⟨(addMessage_missing_user_error demoDb "ghost" "user1" MESSAGE_TYPE_PLAINTEXT "hi" false false).1 rfl,
   (addMessage_missing_user_error demoDb "user1" "user1" MESSAGE_TYPE_PLAINTEXT "hi" false false).2.2 1 rfl⟩

/-- C6.  A send-message request with empty content or an unrecognized type
is rejected by parseSendMessage before AddMessage is invoked: the handler
returns the bad-request outcome carrying the untouched input database, so no
user lookup runs and no message or metadata row is created. -/
theorem sendMessage_rejects_before_storage (db : DB) (s r ty c : String) (f1 f2 : Bool)
    (h : c = "" ∨ (ty ≠ MESSAGE_TYPE_PLAINTEXT ∧ ty ≠ MESSAGE_TYPE_IMAGE_LINK ∧
      ty ≠ MESSAGE_TYPE_VIDEO_LINK)) :
    ∃ e, sendMessage db s r ty c f1 f2 = .badRequest e db := by
  unfold sendMessage parseSendMessage
  rcases h with h | h
  · subst h
    exact ⟨.emptyMessage, rfl⟩
  · by_cases hc : c.length ≤ 0
    · rw [if_pos hc]
      exact ⟨.emptyMessage, rfl⟩
    · rw [if_neg hc, if_pos h]
      exact ⟨.invalidMessageType ty, rfl⟩

/-- Witness for C6: an empty message and an unknown type are both rejected
with the database untouched. -/
theorem sendMessage_rejects_before_storage_witness :
    (∃ e, sendMessage demoDb "user1" "user2" MESSAGE_TYPE_PLAINTEXT "" false false =
      .badRequest e demoDb) ∧
    (∃ e, sendMessage demoDb "user1" "user2" "gif_link" "hi" false false =
      .badRequest e demoDb) :=
  ⟨sendMessage_rejects_before_storage demoDb "user1" "user2" MESSAGE_TYPE_PLAINTEXT "" false false
      (Or.inl rfl),
   sendMessage_rejects_before_storage demoDb "user1" "user2" "gif_link" "hi" false false
      (Or.inr (by refine ⟨?_, ?_, ?_⟩ <;> decide))⟩

/-- Decoding inverts the stored-hash encoding. -/
theorem decodeBcryptHash_encodeBcryptHash (h : BcryptHash) :
    decodeBcryptHash (encodeBcryptHash h) = some h := by
  obtain ⟨c0, s0, k0⟩ := h
  show decodeBcryptHash (c0 :: s0.length :: (s0 ++ k0)) = some ⟨c0, s0, k0⟩
  simp only [decodeBcryptHash]
  rw [if_pos (by simp)]
  simp

/-- C7.  For every password within the accepted length bounds, hashing with
a fresh salt and then authenticating the same password against the stored
hash succeeds, for every possible key-derivation function, embedded bcrypt
salt and returned token: the comparison recomputes the key from the same
truncated input and salt, so it must agree. -/
theorem hashPassword_then_authenticate (kdf : Nat → List Nat → List Nat → List Nat)
    (bsalt token password salt : List Nat) (_hlen : password.length ≤ 72) :
    ∃ hash, HashPasswordWithSalt kdf bsalt password salt = .ok hash ∧
      Authenticate kdf token password salt hash = .ok token := by
  refine ⟨_, rfl, ?_⟩
  unfold Authenticate bcryptCompareHashAndPassword
  rw [decodeBcryptHash_encodeBcryptHash]
  simp

/-- Witness for C7 at a concrete derivation function, password and salt. -/
theorem hashPassword_then_authenticate_witness :
    ∃ hash, HashPasswordWithSalt (fun _ i s => i ++ s) [7] [1, 2] [3] = .ok hash ∧
      Authenticate (fun _ i s => i ++ s) [9] [1, 2] [3] hash = .ok [9] :=
  hashPassword_then_authenticate (fun _ i s => i ++ s) [7] [9] [1, 2] [3] (by decide)

/-- C8, counterexample.  Authenticate given a wrong password does not return
a boolean false without an error: it returns the bcrypt mismatch error.
Concretely, a stored hash derived from password byte 1 checked against
password byte 2 yields the mismatch error. -/
theorem authenticate_mismatch_counterexample :
    Authenticate (fun _ i s => i ++ s) [9] [2] [] (encodeBcryptHash ⟨14, [], [1]⟩) =
      .error .mismatch := by
  rfl

/-- C8 as amended.  Authenticate signals a non-matching password by
returning the bcrypt mismatch error on the same error channel used for a
structurally corrupt stored hash (which yields the distinct parse error);
there is no boolean mismatch result. -/
theorem authenticate_error_on_mismatch (kdf : Nat → List Nat → List Nat → List Nat)
    (token password salt hash : List Nat) :
    (decodeBcryptHash hash = none →
      Authenticate kdf token password salt hash = .error .hashCorrupt) ∧
    (∀ h : BcryptHash, decodeBcryptHash hash = some h →
      h.key ≠ kdf h.cost ((password ++ salt).take 72) h.bsalt →
      Authenticate kdf token password salt hash = .error .mismatch) := by
  constructor
  · intro hd
    unfold Authenticate bcryptCompareHashAndPassword
    rw [hd]
  · intro h hd hne
    unfold Authenticate bcryptCompareHashAndPassword
    rw [hd]
    show (match (if h.key = kdf h.cost ((password ++ salt).take 72) h.bsalt
                 then none else some AuthError.mismatch) with
          | some e => (Except.error e : Except AuthError (List Nat))
          | none => Except.ok token) = Except.error AuthError.mismatch
    rw [if_neg hne]

/-- Witness for C8: a truncated stored hash is reported as corrupt, and a
wrong password as a mismatch. -/
theorem authenticate_error_on_mismatch_witness :
    Authenticate (fun _ i s => i ++ s) [9] [2] [] [5] = .error .hashCorrupt ∧
    Authenticate (fun _ i s => i ++ s) [9] [3] [] (encodeBcryptHash ⟨14, [], [1]⟩) =
      .error .mismatch :=
  ⟨(authenticate_error_on_mismatch (fun _ i s => i ++ s) [9] [2] [] [5]).1 rfl,
   (authenticate_error_on_mismatch (fun _ i s => i ++ s) [9] [3] []
      (encodeBcryptHash ⟨14, [], [1]⟩)).2 ⟨14, [], [1]⟩ (by rfl) (by decide)⟩

/-- C2.  Round trip: in a database where both usernames resolve (in both
directions), where the metadata id counter is fresh and the conversation
between the pair is empty, adding one message of any valid type and then
fetching the conversation returns exactly that message, with matching
sender, recipient, type and content, and with the metadata variant selected
by the type: none for plaintext, the stored width and height for image_link,
the stored length and source for video_link. -/
theorem addMessage_fetchMessages_roundtrip (db : DB) (a b c : String) (aId bId : Int)
    (ha : getUserId db a = .ok aId) (hb : getUserId db b = .ok bId)
    (hra : getUserById db aId = .ok a) (hrb : getUserById db bId = .ok b)
    (hfresh : ∀ m ∈ db.messages_metadata, m.id ≠ db.nextMetadataId)
    (hempty : conversationRows db aId bId = [])
    (_hc : c ≠ "") :
    (∃ db1, AddMessage db a b MESSAGE_TYPE_PLAINTEXT c false false = .ok db.nextMessageId db1 ∧
      FetchMessages db1 a b = .ok [⟨a, b, MESSAGE_TYPE_PLAINTEXT, c, none⟩]) ∧
    (∃ db1, AddMessage db a b MESSAGE_TYPE_IMAGE_LINK c false false = .ok db.nextMessageId db1 ∧
      FetchMessages db1 a b =
        .ok [⟨a, b, MESSAGE_TYPE_IMAGE_LINK, c, some ⟨IMAGE_WIDTH, IMAGE_HEIGHT, 0, ""⟩⟩]) ∧
    (∃ db1, AddMessage db a b MESSAGE_TYPE_VIDEO_LINK c false false = .ok db.nextMessageId db1 ∧
      FetchMessages db1 a b =
        .ok [⟨a, b, MESSAGE_TYPE_VIDEO_LINK, c, some ⟨0, 0, VIDEO_LENGTH, VIDEO_SOURCE⟩⟩]) := by
  refine ⟨⟨_, addMessage_plaintext_ok db a b c aId bId ha hb, ?_⟩,
          ⟨_, addMessage_image_ok db a b c aId bId ha hb, ?_⟩,
          ⟨_, addMessage_video_ok db a b c aId bId ha hb, ?_⟩⟩
  · apply fetchMessages_after_one db (dbAfterPlaintext db aId bId c) a b aId bId
      ⟨db.nextMessageId, aId, bId, MESSAGE_TYPE_PLAINTEXT, c, none⟩ _
      rfl rfl ha hb hempty (by simp [betweenUsers])
    exact rowToMessage_no_metadata _ _ _ _ _ _ _ _
      ((getUserById_users_eq _ db aId rfl).trans hra)
      ((getUserById_users_eq _ db bId rfl).trans hrb)
  · apply fetchMessages_after_one db (dbAfterImage db aId bId c) a b aId bId
      ⟨db.nextMessageId, aId, bId, MESSAGE_TYPE_IMAGE_LINK, c, some db.nextMetadataId⟩ _
      rfl rfl ha hb hempty (by simp [betweenUsers])
    exact rowToMessage_image_row _ _ _ _ _ _ _ _ _
      ((getUserById_users_eq _ db aId rfl).trans hra)
      ((getUserById_users_eq _ db bId rfl).trans hrb)
      (getImageMetadataFromId_append _ db.messages_metadata db.nextMetadataId
        IMAGE_WIDTH IMAGE_HEIGHT rfl hfresh)
  · apply fetchMessages_after_one db (dbAfterVideo db aId bId c) a b aId bId
      ⟨db.nextMessageId, aId, bId, MESSAGE_TYPE_VIDEO_LINK, c, some db.nextMetadataId⟩ _
      rfl rfl ha hb hempty (by simp [betweenUsers])
    exact rowToMessage_video_row _ _ _ _ _ _ _ _ _
      ((getUserById_users_eq _ db aId rfl).trans hra)
      ((getUserById_users_eq _ db bId rfl).trans hrb)
      (getVideoMetadataFromId_append _ db.messages_metadata db.nextMetadataId
        VIDEO_LENGTH VIDEO_SOURCE rfl hfresh)

/-- Witness for C2 at the demo database, image variant. -/
theorem addMessage_fetchMessages_roundtrip_witness :
    ∃ db1, AddMessage demoDb "user1" "user2" MESSAGE_TYPE_IMAGE_LINK "hi" false false =
        .ok demoDb.nextMessageId db1 ∧
      FetchMessages db1 "user1" "user2" =
        .ok [⟨"user1", "user2", MESSAGE_TYPE_IMAGE_LINK, "hi",
              some ⟨IMAGE_WIDTH, IMAGE_HEIGHT, 0, ""⟩⟩] :=
  (addMessage_fetchMessages_roundtrip demoDb "user1" "user2" "hi" 1 2
    rfl rfl rfl rfl (by simp [demoDb]) rfl (by decide)).2.1

/-- C3.  Fetching is symmetric in the queried pair for every database state,
and the send order is preserved: sending M1 then M2 between the same pair
starting from an empty conversation assigns M2 the larger message id and a
subsequent fetch returns exactly the list M1 then M2, in either query
direction. -/
theorem fetchMessages_ordered_and_symmetric (db : DB) (a b c1 c2 : String) (aId bId : Int)
    (ha : getUserId db a = .ok aId) (hb : getUserId db b = .ok bId)
    (hra : getUserById db aId = .ok a) (hrb : getUserById db bId = .ok b)
    (hempty : conversationRows db aId bId = []) :
    (∀ d : DB, ∀ u v : String, FetchMessages d u v = FetchMessages d v u) ∧
    (∃ db1 db2,
      AddMessage db a b MESSAGE_TYPE_PLAINTEXT c1 false false = .ok db.nextMessageId db1 ∧
      AddMessage db1 a b MESSAGE_TYPE_PLAINTEXT c2 false false = .ok db1.nextMessageId db2 ∧
      db.nextMessageId < db1.nextMessageId ∧
      FetchMessages db2 a b =
        .ok [⟨a, b, MESSAGE_TYPE_PLAINTEXT, c1, none⟩, ⟨a, b, MESSAGE_TYPE_PLAINTEXT, c2, none⟩] ∧
      FetchMessages db2 b a =
        .ok [⟨a, b, MESSAGE_TYPE_PLAINTEXT, c1, none⟩, ⟨a, b, MESSAGE_TYPE_PLAINTEXT, c2, none⟩]) := by
  refine ⟨fun d u v => fetchMessages_comm d u v, ?_⟩
  have hfetch : FetchMessages (dbAfterPlaintext (dbAfterPlaintext db aId bId c1) aId bId c2) a b =
      .ok [⟨a, b, MESSAGE_TYPE_PLAINTEXT, c1, none⟩, ⟨a, b, MESSAGE_TYPE_PLAINTEXT, c2, none⟩] := by
    apply fetchMessages_after_two db
      (dbAfterPlaintext (dbAfterPlaintext db aId bId c1) aId bId c2) a b aId bId
      ⟨db.nextMessageId, aId, bId, MESSAGE_TYPE_PLAINTEXT, c1, none⟩
      ⟨db.nextMessageId + 1, aId, bId, MESSAGE_TYPE_PLAINTEXT, c2, none⟩ _ _
      rfl rfl ha hb hempty (by simp [betweenUsers]) (by simp [betweenUsers]) ?_ ?_ ?_
    · show db.nextMessageId ≤ db.nextMessageId + 1
      omega
    · exact rowToMessage_no_metadata _ _ _ _ _ _ _ _
        ((getUserById_users_eq _ db aId rfl).trans hra)
        ((getUserById_users_eq _ db bId rfl).trans hrb)
    · exact rowToMessage_no_metadata _ _ _ _ _ _ _ _
        ((getUserById_users_eq _ db aId rfl).trans hra)
        ((getUserById_users_eq _ db bId rfl).trans hrb)
  refine ⟨dbAfterPlaintext db aId bId c1, dbAfterPlaintext (dbAfterPlaintext db aId bId c1) aId bId c2,
    addMessage_plaintext_ok db a b c1 aId bId ha hb,
    addMessage_plaintext_ok (dbAfterPlaintext db aId bId c1) a b c2 aId bId
      ((getUserId_users_eq _ db a rfl).trans ha)
      ((getUserId_users_eq _ db b rfl).trans hb),
    ?_, hfetch, (fetchMessages_comm _ b a).trans hfetch⟩
  show db.nextMessageId < db.nextMessageId + 1
  omega

/-- Witness for C3 at the demo database. -/
theorem fetchMessages_ordered_and_symmetric_witness :
    FetchMessages demoDb "user1" "user2" = FetchMessages demoDb "user2" "user1" ∧
    (∃ db1 db2,
      AddMessage demoDb "user1" "user2" MESSAGE_TYPE_PLAINTEXT "m1" false false =
        .ok demoDb.nextMessageId db1 ∧
      AddMessage db1 "user1" "user2" MESSAGE_TYPE_PLAINTEXT "m2" false false =
        .ok db1.nextMessageId db2 ∧
      demoDb.nextMessageId < db1.nextMessageId ∧
      FetchMessages db2 "user1" "user2" =
        .ok [⟨"user1", "user2", MESSAGE_TYPE_PLAINTEXT, "m1", none⟩,
             ⟨"user1", "user2", MESSAGE_TYPE_PLAINTEXT, "m2", none⟩] ∧
      FetchMessages db2 "user2" "user1" =
        .ok [⟨"user1", "user2", MESSAGE_TYPE_PLAINTEXT, "m1", none⟩,
             ⟨"user1", "user2", MESSAGE_TYPE_PLAINTEXT, "m2", none⟩]) :=
  ⟨(fetchMessages_ordered_and_symmetric demoDb "user1" "user2" "m1" "m2" 1 2
      rfl rfl rfl rfl rfl).1 demoDb "user1" "user2",
   (fetchMessages_ordered_and_symmetric demoDb "user1" "user2" "m1" "m2" 1 2
      rfl rfl rfl rfl rfl).2⟩

/-- C4.  The pagination window: the request fails with the bad-window error
exactly when pageSize is nonpositive, the start index pageIndex * pageSize
is negative, or the start index is at or beyond the stored count; otherwise
the returned page is the half-open slice from start to
min(start + pageSize, total) of the ordered messages.  In particular, with
five stored messages and pageSize 2, page 0 returns the first two messages,
page 2 returns only the fifth, and page 3 fails. -/
theorem fetchMessages_pagination_window (msgs : List Message) (p k : Int) :
    (fetchMessagesPagination msgs true p k = .error .badPageWindow ↔
      (p ≤ 0 ∨ k * p < 0 ∨ (msgs.length : Int) ≤ k * p)) ∧
    (¬(p ≤ 0 ∨ k * p < 0 ∨ (msgs.length : Int) ≤ k * p) →
      fetchMessagesPagination msgs true p k = .ok (specPageSlice msgs p k)) ∧
    (∀ m1 m2 m3 m4 m5 : Message,
      fetchMessagesPagination [m1, m2, m3, m4, m5] true 2 0 = .ok [m1, m2] ∧
      fetchMessagesPagination [m1, m2, m3, m4, m5] true 2 2 = .ok [m5] ∧
      fetchMessagesPagination [m1, m2, m3, m4, m5] true 2 3 = .error .badPageWindow) := by
  have hiff : ((msgs.length : Int) ≤ k * p ∨ k * p < 0 ∨ p ≤ 0) ↔
      (p ≤ 0 ∨ k * p < 0 ∨ (msgs.length : Int) ≤ k * p) := by tauto
  have hmul : (k + 1) * p = k * p + p := by ring
  refine ⟨?_, ?_, ?_⟩
  · unfold fetchMessagesPagination
    rw [if_pos rfl]
    by_cases hcond : ((msgs.length : Int) ≤ k * p ∨ k * p < 0 ∨ p ≤ 0)
    · rw [if_pos hcond]
      exact iff_of_true rfl (hiff.mp hcond)
    · rw [if_neg hcond]
      by_cases h2 : ((msgs.length : Int) ≥ (k + 1) * p)
      · rw [if_pos h2]
        exact iff_of_false (fun he => Except.noConfusion he)
          (fun hclaim => hcond (hiff.mpr hclaim))
      · rw [if_neg h2]
        exact iff_of_false (fun he => Except.noConfusion he)
          (fun hclaim => hcond (hiff.mpr hclaim))
  · intro hn
    have hcond : ¬ ((msgs.length : Int) ≤ k * p ∨ k * p < 0 ∨ p ≤ 0) :=
      fun hx => hn (hiff.mp hx)
    push_neg at hcond
    unfold fetchMessagesPagination
    rw [if_pos rfl, if_neg (by push_neg; exact hcond)]
    by_cases h2 : ((msgs.length : Int) ≥ (k + 1) * p)
    · rw [if_pos h2]
      unfold goSlice specPageSlice
      have hmin : min (k * p + p) (msgs.length : Int) = k * p + p := by
        rw [hmul] at h2
        omega
      rw [hmin, hmul]
    · rw [if_neg h2]
      unfold goSliceFrom specPageSlice
      rw [hmul] at h2
      push_neg at h2
      have hmin : min (k * p + p) (msgs.length : Int) = (msgs.length : Int) := by omega
      rw [hmin]
      congr 1
      rw [List.take_of_length_le]
      rw [List.length_drop]
      obtain ⟨h1, hstart, hp⟩ := hcond
      omega
  · intro m1 m2 m3 m4 m5
    exact ⟨rfl, rfl, rfl⟩

/-- Witness for C4 at the five demo messages, pageSize 2, pageIndex 2. -/
theorem fetchMessages_pagination_window_witness :
    fetchMessagesPagination demoMessages true 2 2 = .ok (specPageSlice demoMessages 2 2) :=
  (fetchMessages_pagination_window demoMessages 2 2).2.1 (by decide)

end Chat
